import Mathlib

/-!
Verification of the call-agent backend (voice-call assistant glue layer).

This file shallowly embeds the parts of the code that the verified
properties are about:

* `qa_engine.py` — the interest classifier (`analyze_conversation_interest`
  and its parsing / keyword fallbacks) and the LLM message construction of
  `get_response`;
* `routers/calls_api.py` — `log_call` (idempotent upsert of call records
  keyed by `call_session_id`) and `update_lead_status_from_call` (the
  monotonic lead-status ladder);
* `routers/websocket_api.py` — the no-barge-in audio gating, the Deepgram
  `on_message` transcript filter, the LLM worker's hold-window turn
  accumulation, bounded conversation history, timeout fallback, and the
  `ultra_fast_tts` null contract.

Machine floats of the source are modelled as rationals (`ℚ`); wall-clock
timestamps as natural numbers; external I/O outcomes (HTTP responses, LLM
calls, JSON parsing) as explicit inductive inputs.  Store state (the Mongo
`calls` and `leads` collections) is passed explicitly as lists / records.
-/

/-- Python-style substring test on lists of characters: does the second list
contain the first as a contiguous sublist?  An empty needle matches. -/
def isPrefixList : List Char → List Char → Bool
  | [], _ => true
  | _ :: _, [] => false
  | a :: as, b :: bs => a == b && isPrefixList as bs

/-- Helper: `containsSubList needle hay` is Python's `needle in hay`. -/
def containsSubList (needle : List Char) : List Char → Bool
  | [] => isPrefixList needle []
  | b :: bs => isPrefixList needle (b :: bs) || containsSubList needle bs

/-- Python's `needle in hay` on strings. -/
def strContains (hay needle : String) : Bool :=
  containsSubList needle.toList hay.toList

/-- Python's `str.lower()` (the source only ever lower-cases ASCII text). -/
def strToLower (s : String) : String :=
  ⟨s.data.map Char.toLower⟩

/-- Python's `str.strip()`: remove leading and trailing whitespace. -/
def strTrim (s : String) : String :=
  ⟨((s.data.dropWhile Char.isWhitespace).reverse.dropWhile
      Char.isWhitespace).reverse⟩

/-- One entry of a call transcript / AI-response log: a dict with
`type`, `content`, `timestamp` keys (`log_call_message` in
`websocket_api.py`).  Only `content` matters to the embedded logic;
`timestamp` is kept as an opaque string. -/
structure TranscriptMsg where
  content : String
  timestamp : String := ""
deriving DecidableEq

/-- The interest-analysis result produced by `qa_engine.py`
(`interest_status`, `confidence`, `reasoning`, `key_indicators`). -/
structure InterestAnalysis where
  interest_status : String
  confidence : ℚ
  reasoning : String
  key_indicators : List String
deriving DecidableEq

/-- The three allowed interest statuses (`valid_statuses` in
`_parse_interest_analysis_response`). -/
def validStatuses : List String := ["interested", "not_interested", "neutral"]

/-- A successfully `json.loads`-parsed LLM analysis object that contains all
four required keys.  `confidence` as a number (Python `float(...)`
succeeded); `key_indicators` is `some l` when the JSON value was a list and
`none` when it was present but of another type. -/
structure ParsedAnalysisJson where
  interest_status : String
  confidence : ℚ
  reasoning : String
  key_indicators : Option (List String)

/-- Outcome of extracting and `json.loads`-ing the `{...}` substring of the
LLM response in `_parse_interest_analysis_response`: either a parsed object
with all required keys, or any failure (no braces, malformed JSON, missing
keys, non-numeric confidence). -/
inductive JsonParseResult
  | ok (p : ParsedAnalysisJson)
  | failed

/-- Source `DynamicQA._fallback_parse_response`: keyword-based analysis of the raw
LLM response when JSON parsing fails. -/
def fallback_parse_response (llm_response : String) : InterestAnalysis :=
  let response_lower := strToLower llm_response
  if ["interested", "positive", "wants to", "asking about"].any
      (fun w => strContains response_lower w) then
    { interest_status := "interested", confidence := 3/5,
      reasoning := "Fallback analysis - LLM response could not be parsed properly",
      key_indicators := [] }
  else if ["not interested", "negative", "refused", "declined"].any
      (fun w => strContains response_lower w) then
    { interest_status := "not_interested", confidence := 3/5,
      reasoning := "Fallback analysis - LLM response could not be parsed properly",
      key_indicators := [] }
  else
    { interest_status := "neutral", confidence := 1/2,
      reasoning := "Fallback analysis - LLM response could not be parsed properly",
      key_indicators := [] }

/-- Source `DynamicQA._parse_interest_analysis_response`: clamp confidence to
[0,1], validate the status against the three allowed values (defaulting to
neutral), truncate reasoning to 500 chars and key indicators to 10; fall
back to `_fallback_parse_response` when parsing failed. -/
def parse_interest_analysis_response (parse : JsonParseResult)
    (llm_response : String) : InterestAnalysis :=
  match parse with
  | .ok p =>
    let confidence := max 0 (min 1 p.confidence)
    let status0 := strToLower p.interest_status
    let status := if status0 ∈ validStatuses then status0 else "neutral"
    { interest_status := status, confidence := confidence,
      reasoning := p.reasoning.take 500,
      key_indicators := match p.key_indicators with
        | some l => l.take 10
        | none => [] }
  | .failed => fallback_parse_response llm_response

/-- The `positive_keywords` list of `_fallback_interest_analysis`. -/
def positiveKeywords : List String :=
  ["price", "cost", "visit", "site", "when", "how much", "payment",
   "loan", "emi", "possession", "ready", "interested", "yes", "ok",
   "sure", "tell me", "what about", "can i", "booking"]

/-- The `negative_keywords` list of `_fallback_interest_analysis`. -/
def negativeKeywords : List String :=
  ["not interested", "no", "don\x27t call", "remove", "stop", "never",
   "can\x27t afford", "not looking", "not buying", "not now"]

/-- Source `DynamicQA._fallback_interest_analysis`: rule-based interest scoring on
the lower-cased, space-joined user messages of the transcript, used when
the LLM is unavailable or errors. -/
def fallback_interest_analysis (transcription ai_responses : List TranscriptMsg) :
    InterestAnalysis :=
  let _ := ai_responses
  let user_messages := transcription.map (fun m => strToLower m.content)
  let combined_text := String.intercalate " " user_messages
  let positive_score :=
    (positiveKeywords.filter (fun k => strContains combined_text k)).length
  let negative_score :=
    (negativeKeywords.filter (fun k => strContains combined_text k)).length
  if positive_score > negative_score ∧ positive_score ≥ 2 then
    { interest_status := "interested", confidence := 7/10,
      reasoning := "Fallback analysis detected " ++ toString positive_score
        ++ " positive indicators",
      key_indicators :=
        (positiveKeywords.filter (fun k => strContains combined_text k)).take 5 }
  else if negative_score > positive_score ∧ negative_score ≥ 1 then
    { interest_status := "not_interested", confidence := 7/10,
      reasoning := "Fallback analysis detected " ++ toString negative_score
        ++ " negative indicators",
      key_indicators :=
        (negativeKeywords.filter (fun k => strContains combined_text k)).take 5 }
  else
    { interest_status := "neutral", confidence := 1/2,
      reasoning := "Fallback analysis - no clear interest indicators detected",
      key_indicators := [] }

/-- Outcome of the remote LLM classification call in
`analyze_conversation_interest`: either the raw response text together with
the result of JSON-parsing it, or an exception during the call. -/
inductive AnalysisLLMOutcome
  | success (raw : String) (parse : JsonParseResult)
  | failure

/-- Source `DynamicQA.analyze_conversation_interest`.  Here `clientAvailable` models
`hasattr(self.ai_services, 'groq_client') and groq_client is not None`;
`apiKeyConfigured` models the `GROQ_API_KEY` check.  When either check
fails, the code goes to `_fallback_interest_analysis` (before any
transcript-length check); the `< 2` turns short-circuit happens only on
the LLM path. -/
def analyze_conversation_interest (clientAvailable apiKeyConfigured : Bool)
    (transcription ai_responses : List TranscriptMsg)
    (outcome : AnalysisLLMOutcome) : InterestAnalysis :=
  if !clientAvailable then
    fallback_interest_analysis transcription ai_responses
  else if !apiKeyConfigured then
    fallback_interest_analysis transcription ai_responses
  else if transcription.length < 2 then
    { interest_status := "neutral", confidence := 1/2,
      reasoning := "Conversation too short to determine interest level",
      key_indicators := [] }
  else
    match outcome with
    | .success raw parse => parse_interest_analysis_response parse raw
    | .failure => fallback_interest_analysis transcription ai_responses

/-- The per-call data dict handed to `log_call` /
`update_lead_status_from_call` (`call_data` in `calls_api.py`).  Every key
may be absent, in which case the code's `.get(key, default)` defaults
apply. -/
structure CallData where
  direction : Option String := none
  status : Option String := none
  duration : Option ℚ := none
  transcription : Option (List TranscriptMsg) := none
  ai_responses : Option (List TranscriptMsg) := none
  summary : Option String := none
  sentiment : Option String := none
  interest_analysis : Option InterestAnalysis := none
  call_session_id : Option String := none
deriving DecidableEq

/-- A lead document, restricted to the fields touched or read by
`update_lead_status_from_call`.  `status := none` models a document
without a `status` key (the code reads it with `lead.get("status", "new")`). -/
structure Lead where
  id : Nat
  name : String
  phone : String
  status : Option String := none
  updated_at : Nat := 0
  status_reason : Option String := none
deriving DecidableEq

/-- The rank of a lead status on the 4-level ladder
`new < called < contacted < converted`. -/
def statusRank (s : String) : Nat :=
  if s = "new" then 0
  else if s = "called" then 1
  else if s = "contacted" then 2
  else if s = "converted" then 3
  else 0

/-- The conversion trigger of `update_lead_status_from_call`: a present
interest analysis with `interest_status == "interested"`, confidence
`> 0.7`, and current status `called` or `contacted`. -/
def interestConverts (current_status : String) (cd : CallData) : Bool :=
  match cd.interest_analysis with
  | none => false
  | some ia =>
    decide (ia.interest_status = "interested" ∧ ia.confidence > 7/10 ∧
      (current_status = "called" ∨ current_status = "contacted"))

/-- The status-transition logic of `update_lead_status_from_call`
(`calls_api.py` lines 52-93): computes `new_status` from the current lead
status and the call data.  The final interest-analysis check runs after
(and can overwrite) the call-status branch, exactly as in the source. -/
def computeNewStatus (current_status : String) (cd : CallData) : String :=
  let call_status := cd.status.getD "completed"
  let call_duration := cd.duration.getD 0
  let has_conversation : Prop :=
    (cd.transcription.getD []).length > 0 ∨ (cd.ai_responses.getD []).length > 0
  let base :=
    if call_status = "initiated" then
      if current_status = "new" then "called" else current_status
    else if call_status = "completed" ∧ call_duration > 0 then
      if current_status = "new" ∨ current_status = "called" then
        if has_conversation then "contacted"
        else if call_duration > 5 then "contacted"
        else if current_status = "new" then "called" else current_status
      else current_status
    else current_status
  if interestConverts current_status cd then "converted" else base

/-- Source `update_lead_status_from_call` acting on a found lead document: returns
the (possibly updated) lead and whether a write was issued to the `leads`
collection.  The write (with `updated_at` set to the write time `t` and a
`status_reason`) happens only under `new_status != current_status`. -/
def update_lead_status_from_call (lead : Lead) (cd : CallData) (t : Nat) :
    Lead × Bool :=
  let current_status := lead.status.getD "new"
  let new_status := computeNewStatus current_status cd
  if new_status ≠ current_status then
    ({ lead with
        status := some new_status
        updated_at := t
        status_reason :=
          some ("Auto-updated from call: " ++ cd.status.getD "completed") }, true)
  else
    (lead, false)

/-- A persisted call record (`call_record` in `log_call`), with `id`
standing for the Mongo `_id` and timestamps as abstract instants. -/
structure CallRecord where
  id : Nat
  phone_number : String
  lead_id : Option String
  call_date : Nat
  direction : String
  status : String
  duration : ℚ
  transcription : List TranscriptMsg
  ai_responses : List TranscriptMsg
  call_summary : String
  sentiment : String
  interest_analysis : Option InterestAnalysis
  call_session_id : Option String
  created_at : Nat
  updated_at : Nat
deriving DecidableEq

/-- The new `call_record` dict built at the top of `log_call`, with the
`call_data.get(key, default) if call_data else default` defaults.  `sid`
is the `call_session_id` key, set only on the insert path. -/
def buildCallRecord (newId t : Nat) (phone_number : String)
    (lead_id : Option String) (call_data : Option CallData)
    (sid : Option String) : CallRecord :=
  { id := newId
    phone_number := phone_number
    lead_id := lead_id
    call_date := t
    direction := ((call_data.getD {}).direction).getD "outbound"
    status := ((call_data.getD {}).status).getD "completed"
    duration := ((call_data.getD {}).duration).getD 0
    transcription := ((call_data.getD {}).transcription).getD []
    ai_responses := ((call_data.getD {}).ai_responses).getD []
    call_summary := ((call_data.getD {}).summary).getD ""
    sentiment := ((call_data.getD {}).sentiment).getD "neutral"
    interest_analysis := (call_data.getD {}).interest_analysis
    call_session_id := sid
    created_at := t
    updated_at := t }

/-- The `$set` document of the update-existing branch of `log_call`: every
content field is overwritten from the new call data; `_id`, `created_at`
and `call_session_id` are left untouched. -/
def applyCallUpdate (t : Nat) (phone_number : String) (lead_id : Option String)
    (cd : CallData) (r : CallRecord) : CallRecord :=
  { r with
    phone_number := phone_number
    lead_id := lead_id
    direction := cd.direction.getD "outbound"
    status := cd.status.getD "completed"
    duration := cd.duration.getD 0
    transcription := cd.transcription.getD []
    ai_responses := cd.ai_responses.getD []
    call_summary := cd.summary.getD ""
    sentiment := cd.sentiment.getD "neutral"
    interest_analysis := cd.interest_analysis
    updated_at := t
    call_date := t }

/-- Mongo `update_one({"_id": i}, ...)`: apply `f` to the first record with
id `i`, leave the rest unchanged. -/
def updateById (i : Nat) (f : CallRecord → CallRecord) :
    List CallRecord → List CallRecord
  | [] => []
  | r :: rs => if r.id = i then f r :: rs else r :: updateById i f rs

/-- All records of the store carrying the session id `sid`
(`find` on `{"call_session_id": sid}`). -/
def filterSid (sid : String) (store : List CallRecord) : List CallRecord :=
  store.filter (fun r => decide (r.call_session_id = some sid))

/-- Source `log_call` of `calls_api.py`, as its effect on the `calls` collection.
`connected` models `mongo_client.is_connected()` (when false the function
returns an error without touching the store); `t` is the wall-clock time of
the invocation and `newId` the fresh `_id` Mongo would assign on insert.
The dedupe branch is guarded by Python's truthiness check `if session_id:`,
so both a missing key and an empty-string `call_session_id` take the plain
insert path and the `call_session_id` field is never set on the record.
The lead-side effects (`last_call` timestamp, `update_lead_status_from_call`)
live on the `leads` collection and are modelled separately by
`update_lead_status_from_call`. -/
def log_call (connected : Bool) (t newId : Nat) (phone_number : String)
    (lead_id : Option String) (call_data : Option CallData)
    (store : List CallRecord) : List CallRecord :=
  if !connected then store
  else
    match (call_data.getD {}).call_session_id with
    | some sid =>
      if sid ≠ "" then
        match store.find? (fun r => decide (r.call_session_id = some sid)) with
        | some existing =>
          updateById existing.id
            (applyCallUpdate t phone_number lead_id (call_data.getD {})) store
        | none =>
          store ++
            [buildCallRecord newId t phone_number lead_id call_data (some sid)]
      else
        store ++ [buildCallRecord newId t phone_number lead_id call_data none]
    | none =>
      store ++ [buildCallRecord newId t phone_number lead_id call_data none]

/-- One invocation of `log_call` as seen by the idempotency claim: the
arguments of the call. -/
structure LogInvocation where
  phone_number : String
  lead_id : Option String
  call_data : CallData
deriving DecidableEq

/-- A sequence of `log_call` invocations applied in order to the store,
with fresh ids `n, n+1, ...` for any inserts. -/
def logFold (connected : Bool) (t : Nat) :
    Nat → List LogInvocation → List CallRecord → List CallRecord
  | _, [], store => store
  | n, i :: rest, store =>
    logFold connected t (n + 1) rest
      (log_call connected t n i.phone_number i.lead_id (some i.call_data) store)

/-- The stored record reflects the given invocation: each field named by
the idempotency property equals the (defaulted) value of the invocation's
`call_data`. -/
def recordMatches (i : LogInvocation) (r : CallRecord) : Prop :=
  r.phone_number = i.phone_number ∧
  r.lead_id = i.lead_id ∧
  r.status = i.call_data.status.getD "completed" ∧
  r.duration = i.call_data.duration.getD 0 ∧
  r.transcription = i.call_data.transcription.getD [] ∧
  r.ai_responses = i.call_data.ai_responses.getD [] ∧
  r.call_summary = i.call_data.summary.getD "" ∧
  r.sentiment = i.call_data.sentiment.getD "neutral" ∧
  r.interest_analysis = i.call_data.interest_analysis

/-- The `AUDIO_BUFFER_SIZE` constant of `websocket_api.py` (~500ms at 8 kHz 16-bit mono). -/
def AUDIO_BUFFER_SIZE : Nat := 8000

/-- Source `bot_is_speaking()`: true when a speaking window is set and the current
time is still before it. -/
def botIsSpeaking (bot_speaking_until : Option Nat) (now : Nat) : Bool :=
  match bot_speaking_until with
  | none => false
  | some t => decide (now < t)

/-- The `while len(audio_buffer) >= AUDIO_BUFFER_SIZE` loop of the
websocket endpoint's audio branch: repeatedly peel off a chunk, convert it
(`fast_audio_convert`, passed in as `convert` since it is numeric DSP), and
forward it to Deepgram; when Deepgram is not connected the buffer is
cleared and the loop breaks.  Returns the remaining buffer and the list of
chunks sent to the transcription adapter. -/
def sendBufferedChunks (convert : List Nat → List Nat) (dgConnected : Bool)
    (buffer : List Nat) : List Nat × List (List Nat) :=
  if hlen : AUDIO_BUFFER_SIZE ≤ buffer.length then
    let chunk := buffer.take AUDIO_BUFFER_SIZE
    let rest := buffer.drop AUDIO_BUFFER_SIZE
    if dgConnected then
      let r := sendBufferedChunks convert dgConnected rest
      (r.1, convert chunk :: r.2)
    else
      ([], [])
  else
    (buffer, [])
termination_by buffer.length
decreasing_by
  simp only [List.length_drop, AUDIO_BUFFER_SIZE] at *
  omega

/-- The `"bytes" in message` branch of `websocket_endpoint`: while the bot
is speaking the incoming frame is dropped and the accumulated buffer is
cleared (nothing reaches the adapter); otherwise the frame is appended to
the buffer and full chunks are forwarded.  Returns the new buffer and the
chunks sent to the transcription adapter. -/
def handleAudioFrame (bot_speaking_until : Option Nat) (now : Nat)
    (convert : List Nat → List Nat) (dgConnected : Bool)
    (audio_buffer incoming : List Nat) : List Nat × List (List Nat) :=
  if botIsSpeaking bot_speaking_until now then
    ([], [])
  else
    sendBufferedChunks convert dgConnected (audio_buffer ++ incoming)

/-- The first element of `channel.alternatives` in a Deepgram result. -/
structure DGAlternative where
  transcript : String := ""
  confidence : ℚ := 0
  final : Bool := false

/-- A Deepgram websocket message as read by `on_message` in
`start_fast_deepgram`: its `type`, the various is-final flags the code
treats as synonyms, and the first alternative. -/
structure DGMessage where
  type : String
  is_final : Bool := false
  speech_final : Bool := false
  final : Bool := false
  channel_is_final : Bool := false
  alt : DGAlternative := {}

/-- Source `on_message` of `start_fast_deepgram`, as its effect on the transcript
queue `q`: a non-empty transcript with any final flag set is enqueued,
unless the bot is speaking, in which case it is dropped; everything else
leaves the queue unchanged. -/
def onDeepgramMessage (bot_speaking_until : Option Nat) (now : Nat)
    (msg : DGMessage) (q : List String) : List String :=
  if msg.type = "Results" then
    let transcript := msg.alt.transcript
    let is_final := msg.is_final || msg.speech_final || msg.final ||
      msg.channel_is_final || msg.alt.final
    if transcript ≠ "" ∧ is_final = true then
      if botIsSpeaking bot_speaking_until now then q
      else q ++ [transcript]
    else q
  else q

/-- One role/content chat message sent to the LLM. -/
structure ChatMsg where
  role : String
  content : String
deriving DecidableEq

/-- The `exit_keywords` list of `DynamicQA.is_exit_intent`. -/
def exitKeywords : List String :=
  ["bye", "goodbye", "see you", "exit", "quit",
   "stop", "end", "finish", "done", "thank you",
   "thanks", "that\x27s all", "no more", "nothing else",
   "i\x27m done", "gotta go", "have to go", "talk later"]

/-- Source `DynamicQA.is_exit_intent`: case-insensitive substring match against
the fixed keyword list. -/
def is_exit_intent (user_input : String) : Bool :=
  let lowered := strToLower user_input
  exitKeywords.any (fun k => strContains lowered k)

/-- The hold-window combination step of `ultra_fast_llm_worker`
(`" ".join(t[0].strip() for t in transcription_buffer if t[0] and
t[0].strip())`): the non-empty trimmed fragments, joined in arrival order
with single spaces. -/
def combineFragments (frags : List String) : String :=
  String.intercalate " "
    ((frags.filter (fun t => t ≠ "" ∧ strTrim t ≠ "")).map strTrim)

/-- Outcome of the guarded `bot.get_response` call in the worker: a reply,
an `asyncio.TimeoutError` after the 12s wall-clock timeout, or another
exception with its message. -/
inductive LLMOutcome
  | success (reply : String)
  | timeout
  | error (message : String)

/-- The canned fallback reply of the worker's timeout branch. -/
def llmTimeoutFallback : String :=
  "I\x27m sorry, I\x27m taking a bit longer. Could you please repeat or clarify what you\x27d like help with?"

/-- The differentiated fixed replies of the worker's generic-exception
branch. -/
def llmErrorReply (message : String) : String :=
  let m := strToLower message
  if strContains m "api_key" || strContains m "authentication" then
    "I\x27m sorry, there\x27s an authentication issue with my AI service. Please check the API configuration."
  else if strContains m "connection" || strContains m "timeout" then
    "I\x27m sorry, I\x27m having trouble connecting to my AI service. Please try again."
  else
    "I\x27m sorry, I encountered an error. Please try again."

/-- The session state owned by `ultra_fast_llm_worker`: the running
conversation history and the `session_started` flag. -/
structure WorkerState where
  history : List ChatMsg
  session_started : Bool
deriving DecidableEq

/-- The per-turn tail of `ultra_fast_llm_worker` once a non-empty combined
user turn `user_text` exists: mark the session started, detect exit intent
(queue the exit message, reset state, hang up), otherwise obtain the reply
(LLM result, timeout fallback, or error reply), queue it for synthesis and
extend-then-trim the history.  Returns the new state, the texts queued on
`tts_q`, and whether a hangup was triggered. -/
def processUserTurn (outcome : LLMOutcome) (exit_message : String)
    (user_text : String) (st : WorkerState) : WorkerState × List String × Bool :=
  let st := { st with session_started := true }
  if is_exit_intent user_text then
    ({ st with session_started := false, history := [] }, [exit_message], true)
  else
    let reply :=
      match outcome with
      | .success r => r
      | .timeout => llmTimeoutFallback
      | .error m => llmErrorReply m
    let history := st.history ++ [⟨"user", user_text⟩, ⟨"assistant", reply⟩]
    let history :=
      if history.length > 8 then history.drop (history.length - 6) else history
    ({ st with history := history }, [reply], false)

/-- A full dequeue step of `ultra_fast_llm_worker`: the fragments collected
during the hold window are combined into one user turn; an all-whitespace
turn is skipped (`continue`), otherwise exactly one turn is dispatched.
The second component is the user turn handed to the Response Generator,
`none` when nothing was dispatched. -/
def workerDequeueStep (outcome : LLMOutcome) (exit_message : String)
    (frags : List String) (st : WorkerState) :
    WorkerState × Option String × List String × Bool :=
  let user_text := combineFragments frags
  if user_text = "" then
    (st, none, [], false)
  else
    let r := processUserTurn outcome exit_message user_text st
    (r.1, some user_text, r.2.1, r.2.2)

/-- The `messages` list built by `DynamicQA.get_response`: the system
prompt, then `conversation_history[-4:]`, then the user input. -/
def buildChatMessages (system_prompt : String)
    (conversation_history : List ChatMsg) (user_input : String) : List ChatMsg :=
  ⟨"system", system_prompt⟩ ::
    (conversation_history.drop (conversation_history.length - 4) ++
      [⟨"user", user_input⟩])

/-- Outcome of the Google TTS HTTP POST in `ultra_fast_tts`: a response
with status code and the (possibly empty) base64 `audioContent` field, or
an exception during the request. -/
inductive TTSNetOutcome
  | response (status : Nat) (audioContent : String)
  | netError

/-- Source `ultra_fast_tts` of `websocket_api.py`: returns the decoded audio bytes
or `none`, plus whether a network request was made.  `decode` stands for
`base64.b64decode` (with `none` for a decode exception, which the code's
`except` turns into `None`).  Empty/whitespace text returns `none` before
any network call; non-200 status, empty `audioContent` and request
exceptions all return `none`. -/
def ultra_fast_tts (decode : String → Option (List Nat)) (text : String)
    (net : TTSNetOutcome) : Option (List Nat) × Bool :=
  if strTrim text = "" then
    (none, false)
  else
    match net with
    | .response status audio_b64 =>
      if status = 200 then
        if audio_b64 ≠ "" then (decode audio_b64, true)
        else (none, true)
      else (none, true)
    | .netError => (none, true)

lemma fallback_parse_response_bounds (raw : String) :
    0 ≤ (fallback_parse_response raw).confidence ∧
    (fallback_parse_response raw).confidence ≤ 1 ∧
    (fallback_parse_response raw).interest_status ∈ validStatuses := by
  simp only [fallback_parse_response]
  split_ifs <;> exact ⟨by norm_num, by norm_num, by simp [validStatuses]⟩

lemma parse_interest_analysis_response_bounds (parse : JsonParseResult)
    (raw : String) :
    0 ≤ (parse_interest_analysis_response parse raw).confidence ∧
    (parse_interest_analysis_response parse raw).confidence ≤ 1 ∧
    (parse_interest_analysis_response parse raw).interest_status ∈ validStatuses := by
  cases parse with
  | failed => simpa [parse_interest_analysis_response] using
      fallback_parse_response_bounds raw
  | ok p =>
    simp only [parse_interest_analysis_response]
    refine ⟨le_max_left 0 _, max_le (by norm_num) (min_le_left 1 _), ?_⟩
    split_ifs with h
    · exact h
    · simp [validStatuses]

lemma fallback_interest_analysis_bounds (transcription ai_responses : List TranscriptMsg) :
    0 ≤ (fallback_interest_analysis transcription ai_responses).confidence ∧
    (fallback_interest_analysis transcription ai_responses).confidence ≤ 1 ∧
    (fallback_interest_analysis transcription ai_responses).interest_status ∈ validStatuses := by
  simp only [fallback_interest_analysis]
  split_ifs <;> exact ⟨by norm_num, by norm_num, by simp [validStatuses]⟩

/-- C6: every output of the interest analyzer — from the JSON parser, the
non-JSON fallback parser, or the keyword-heuristic fallback — has a
confidence in [0,1] and an interest status among the three allowed
values. -/
theorem interest_classification_bounds (parse : JsonParseResult) (raw : String)
    (transcription ai_responses : List TranscriptMsg) :
    (0 ≤ (parse_interest_analysis_response parse raw).confidence ∧
      (parse_interest_analysis_response parse raw).confidence ≤ 1 ∧
      (parse_interest_analysis_response parse raw).interest_status ∈ validStatuses) ∧
    (0 ≤ (fallback_parse_response raw).confidence ∧
      (fallback_parse_response raw).confidence ≤ 1 ∧
      (fallback_parse_response raw).interest_status ∈ validStatuses) ∧
    (0 ≤ (fallback_interest_analysis transcription ai_responses).confidence ∧
      (fallback_interest_analysis transcription ai_responses).confidence ≤ 1 ∧
      (fallback_interest_analysis transcription ai_responses).interest_status ∈ validStatuses) :=
  ⟨parse_interest_analysis_response_bounds parse raw,
   fallback_parse_response_bounds raw,
   fallback_interest_analysis_bounds transcription ai_responses⟩

/-- C7 (as stated) is false: with the LLM client unavailable,
`analyze_conversation_interest` reaches `_fallback_interest_analysis`
before any transcript-length check, so a 1-turn transcript containing two
positive keywords is classified "interested" with confidence 0.7, not
"neutral" with confidence 0.5. -/
theorem analyze_interest_short_transcript_cex :
    ([({ content := "price visit", timestamp := "" } : TranscriptMsg)].length < 2) ∧
    (analyze_conversation_interest false true
        [{ content := "price visit", timestamp := "" }] []
        .failure).interest_status = "interested" ∧
    (analyze_conversation_interest false true
        [{ content := "price visit", timestamp := "" }] []
        .failure).confidence = 7/10 := by
  exact ⟨by decide, rfl, rfl⟩

/-- C7 (amended): when the LLM client is available and the API key is
configured, a transcript with fewer than 2 turns is not sent for
classification and yields status "neutral" with confidence 0.5; when the
client is unavailable the keyword fallback runs instead. -/
theorem analyze_interest_short_transcript (transcription ai_responses : List TranscriptMsg)
    (outcome : AnalysisLLMOutcome) (h : transcription.length < 2) :
    analyze_conversation_interest true true transcription ai_responses outcome =
      { interest_status := "neutral", confidence := 1/2,
        reasoning := "Conversation too short to determine interest level",
        key_indicators := [] } := by
  simp [analyze_conversation_interest, h]

theorem analyze_interest_short_transcript_witness :
    ([({ content := "hi", timestamp := "" } : TranscriptMsg)].length < 2) ∧
    analyze_conversation_interest true true
        [{ content := "hi", timestamp := "" }] [] .failure =
      { interest_status := "neutral", confidence := 1/2,
        reasoning := "Conversation too short to determine interest level",
        key_indicators := [] } :=
  ⟨by decide, analyze_interest_short_transcript _ _ _ (by decide)⟩

/-- C2: for every call event, the lead status computed by
`update_lead_status_from_call` never ranks below the current status on the
ladder new < called < contacted < converted; in particular a call event
with `call_status = "initiated"` (and no interest-analysis conversion
trigger) leaves a lead already at "contacted" unchanged. -/
theorem lead_status_monotone (cd : CallData) (current : String)
    (h : current ∈ ["new", "called", "contacted", "converted"]) :
    statusRank current ≤ statusRank (computeNewStatus current cd) ∧
    (cd.status = some "initiated" → cd.interest_analysis = none →
      computeNewStatus "contacted" cd = "contacted") := by
  constructor
  · simp only [List.mem_cons] at h
    rcases h with rfl | rfl | rfl | rfl | h
    all_goals first
      | exact absurd h (List.not_mem_nil _)
      | (simp only [computeNewStatus]
         split_ifs <;> simp_all [statusRank])
  · intro h1 h2
    simp [computeNewStatus, interestConverts, h1, h2]

theorem lead_status_monotone_witness :
    ("contacted" ∈ ["new", "called", "contacted", "converted"]) ∧
    (statusRank "contacted" ≤
        statusRank (computeNewStatus "contacted" { status := some "initiated" }) ∧
      (({ status := some "initiated" } : CallData).status = some "initiated" →
        ({ status := some "initiated" } : CallData).interest_analysis = none →
        computeNewStatus "contacted" { status := some "initiated" } = "contacted")) :=
  ⟨by decide, lead_status_monotone { status := some "initiated" } "contacted" (by decide)⟩

/-- C10: when the computed new status equals the lead's current status,
`update_lead_status_from_call` issues no write to the `leads` collection —
the lead document (including `updated_at` and `status_reason`) is returned
unchanged and the write flag is false. -/
theorem lead_update_frame (lead : Lead) (cd : CallData) (t : Nat)
    (h : computeNewStatus (lead.status.getD "new") cd = lead.status.getD "new") :
    update_lead_status_from_call lead cd t = (lead, false) := by
  simp [update_lead_status_from_call, h]

theorem lead_update_frame_witness :
    (computeNewStatus
        (({ id := 1, name := "Asha", phone := "+911234567890",
            status := some "new" } : Lead).status.getD "new") {} =
      ({ id := 1, name := "Asha", phone := "+911234567890",
            status := some "new" } : Lead).status.getD "new") ∧
    update_lead_status_from_call
        { id := 1, name := "Asha", phone := "+911234567890", status := some "new" }
        {} 5 =
      ({ id := 1, name := "Asha", phone := "+911234567890", status := some "new" },
        false) :=
  ⟨rfl, lead_update_frame _ _ _ rfl⟩

/-- C3: while the bot is speaking (`now < speaking_until`), an inbound
audio frame is discarded — the buffer is cleared and nothing is forwarded
to the transcription adapter — and a finalized transcript arriving from
the adapter is dropped, leaving the transcript queue unchanged. -/
theorem no_barge_in (bot_speaking_until : Option Nat) (now : Nat)
    (convert : List Nat → List Nat) (dgConnected : Bool)
    (audio_buffer incoming : List Nat) (msg : DGMessage) (q : List String)
    (h : botIsSpeaking bot_speaking_until now = true) :
    handleAudioFrame bot_speaking_until now convert dgConnected
        audio_buffer incoming = ([], []) ∧
    onDeepgramMessage bot_speaking_until now msg q = q := by
  constructor
  · simp [handleAudioFrame, h]
  · simp only [onDeepgramMessage, h]
    split_ifs <;> simp

theorem no_barge_in_witness :
    botIsSpeaking (some 10) 5 = true ∧
    (handleAudioFrame (some 10) 5 id true [1, 2, 3] [4, 5] = ([], []) ∧
      onDeepgramMessage (some 10) 5
        { type := "Results", is_final := true, alt := { transcript := "hello" } }
        ["earlier"] = ["earlier"]) :=
  ⟨by decide, no_barge_in _ _ _ _ _ _ _ _ (by decide)⟩

/-- C4: when the guarded LLM call times out, the worker's reply for that
turn is exactly the canned fallback string and is queued for synthesis; no
hangup is triggered, the session stays started, and the conversation state
is not reset — the history is extended (and trimmed) exactly as on the
normal path. -/
theorem llm_timeout_graceful (exit_message user_text : String) (st : WorkerState)
    (h : is_exit_intent user_text = false) :
    (processUserTurn .timeout exit_message user_text st).2.1 = [llmTimeoutFallback] ∧
    (processUserTurn .timeout exit_message user_text st).2.2 = false ∧
    (processUserTurn .timeout exit_message user_text st).1.session_started = true ∧
    (processUserTurn .timeout exit_message user_text st).1.history =
      (fun hist => if hist.length > 8 then hist.drop (hist.length - 6) else hist)
        (st.history ++ [⟨"user", user_text⟩, ⟨"assistant", llmTimeoutFallback⟩]) := by
  refine ⟨?_, ?_, ?_, ?_⟩ <;> simp [processUserTurn, h]

theorem llm_timeout_graceful_witness :
    is_exit_intent "tell me about two bedroom flats" = false ∧
    ((processUserTurn .timeout "Goodbye!" "tell me about two bedroom flats"
        ⟨[], false⟩).2.1 = [llmTimeoutFallback] ∧
      (processUserTurn .timeout "Goodbye!" "tell me about two bedroom flats"
        ⟨[], false⟩).2.2 = false ∧
      (processUserTurn .timeout "Goodbye!" "tell me about two bedroom flats"
        ⟨[], false⟩).1.session_started = true ∧
      (processUserTurn .timeout "Goodbye!" "tell me about two bedroom flats"
        ⟨[], false⟩).1.history =
        (fun hist => if hist.length > 8 then hist.drop (hist.length - 6) else hist)
          (([] : List ChatMsg) ++
            [⟨"user", "tell me about two bedroom flats"⟩,
             ⟨"assistant", llmTimeoutFallback⟩])) :=
  ⟨by decide, llm_timeout_graceful "Goodbye!" _ _ (by decide)⟩

/-- C5: fragments accumulated during the hold window are combined into one
user turn — the non-empty trimmed fragments joined in arrival order with
single spaces, e.g. "I want a 2 bedroom" then "in Andheri" becomes
"I want a 2 bedroom in Andheri" — and a dequeue step dispatches exactly
that combined turn to the Response Generator and queues exactly one reply
for it. -/
theorem hold_window_accumulation :
    combineFragments ["I want a 2 bedroom", "in Andheri"] =
      "I want a 2 bedroom in Andheri" ∧
    ∀ (outcome : LLMOutcome) (exit_message : String) (frags : List String)
      (st : WorkerState),
      combineFragments frags ≠ "" →
      is_exit_intent (combineFragments frags) = false →
      (workerDequeueStep outcome exit_message frags st).2.1 =
        some (combineFragments frags) ∧
      (workerDequeueStep outcome exit_message frags st).2.2.1.length = 1 := by
  refine ⟨by decide, ?_⟩
  intro outcome exit_message frags st h1 h2
  constructor
  · simp [workerDequeueStep, h1]
  · simp [workerDequeueStep, processUserTurn, h1, h2]

theorem hold_window_accumulation_witness :
    (combineFragments ["I want a 2 bedroom", "in Andheri"] ≠ "" ∧
      is_exit_intent (combineFragments ["I want a 2 bedroom", "in Andheri"]) = false) ∧
    ((workerDequeueStep (.success "Sure, we have 2BHK options.") "Goodbye!"
        ["I want a 2 bedroom", "in Andheri"] ⟨[], false⟩).2.1 =
      some (combineFragments ["I want a 2 bedroom", "in Andheri"]) ∧
     (workerDequeueStep (.success "Sure, we have 2BHK options.") "Goodbye!"
        ["I want a 2 bedroom", "in Andheri"] ⟨[], false⟩).2.2.1.length = 1) :=
  ⟨⟨by decide, by decide⟩,
    hold_window_accumulation.2 _ _ _ _ (by decide) (by decide)⟩

/-- C8: after any processed user turn the running conversation history
holds at most 8 entries (trimmed to the last 6 whenever appending makes it
exceed 8), and the upstream request built by `get_response` contains,
besides the system prompt and the new user input, only the last
`min 4 |history|` entries of the supplied history (a suffix of it). -/
theorem bounded_conversation_memory (outcome : LLMOutcome)
    (exit_message user_text : String) (st : WorkerState)
    (system_prompt : String) (history : List ChatMsg) (user_input : String)
    (h : st.history.length ≤ 8) :
    (processUserTurn outcome exit_message user_text st).1.history.length ≤ 8 ∧
    buildChatMessages system_prompt history user_input =
      ⟨"system", system_prompt⟩ ::
        (history.drop (history.length - 4) ++ [⟨"user", user_input⟩]) ∧
    (history.drop (history.length - 4)).length = min 4 history.length ∧
    history.drop (history.length - 4) <:+ history := by
  refine ⟨?_, rfl, ?_, List.drop_suffix _ _⟩
  · simp only [processUserTurn]
    split_ifs <;> simp_all
    omega
  · simp [List.length_drop]
    omega

theorem bounded_conversation_memory_witness :
    ((⟨[⟨"user", "hi"⟩, ⟨"assistant", "hello"⟩], true⟩ : WorkerState).history.length ≤ 8) ∧
    ((processUserTurn (.success "ok") "Goodbye!" "price please"
        ⟨[⟨"user", "hi"⟩, ⟨"assistant", "hello"⟩], true⟩).1.history.length ≤ 8 ∧
      buildChatMessages "sys" [⟨"user", "hi"⟩] "next" =
        ⟨"system", "sys"⟩ ::
          (([⟨"user", "hi"⟩] : List ChatMsg).drop
              (([⟨"user", "hi"⟩] : List ChatMsg).length - 4) ++ [⟨"user", "next"⟩]) ∧
      (([⟨"user", "hi"⟩] : List ChatMsg).drop
          (([⟨"user", "hi"⟩] : List ChatMsg).length - 4)).length =
        min 4 ([⟨"user", "hi"⟩] : List ChatMsg).length ∧
      ([⟨"user", "hi"⟩] : List ChatMsg).drop
          (([⟨"user", "hi"⟩] : List ChatMsg).length - 4) <:+ [⟨"user", "hi"⟩]) :=
  ⟨by decide,
    bounded_conversation_memory (.success "ok") "Goodbye!" "price please"
      ⟨[⟨"user", "hi"⟩, ⟨"assistant", "hello"⟩], true⟩ "sys" [⟨"user", "hi"⟩]
      "next" (by decide)⟩

/-- C9: `ultra_fast_tts` returns null without a network request for
empty/whitespace text; returns null on a non-200 response, on empty
`audioContent`, and on a request exception; otherwise it returns the
base64-decoded audio bytes. -/
theorem ultra_fast_tts_null_contract (decode : String → Option (List Nat))
    (text : String) (net : TTSNetOutcome) :
    (strTrim text = "" → ultra_fast_tts decode text net = (none, false)) ∧
    (net = .netError → (ultra_fast_tts decode text net).1 = none) ∧
    (∀ status audio, net = .response status audio → status ≠ 200 →
      (ultra_fast_tts decode text net).1 = none) ∧
    (∀ status, net = .response status "" → (ultra_fast_tts decode text net).1 = none) ∧
    (∀ audio, strTrim text ≠ "" → net = .response 200 audio → audio ≠ "" →
      ultra_fast_tts decode text net = (decode audio, true)) := by
  refine ⟨?_, ?_, ?_, ?_, ?_⟩
  · intro h; simp [ultra_fast_tts, h]
  · rintro rfl; by_cases h : strTrim text = "" <;> simp [ultra_fast_tts, h]
  · rintro status audio rfl hs
    by_cases h : strTrim text = "" <;> simp [ultra_fast_tts, h, hs]
  · rintro status rfl
    by_cases h : strTrim text = "" <;> simp [ultra_fast_tts, h]
  · rintro audio h rfl ha
    simp [ultra_fast_tts, h, ha]

theorem ultra_fast_tts_null_contract_witness :
    (strTrim "Hello there." ≠ "" ∧ ("QUJD" : String) ≠ "") ∧
    ultra_fast_tts (fun _ => some [65, 66, 67]) "Hello there."
        (.response 200 "QUJD") = (some [65, 66, 67], true) :=
  ⟨⟨by decide, by decide⟩,
    (ultra_fast_tts_null_contract (fun _ => some [65, 66, 67]) "Hello there."
        (.response 200 "QUJD")).2.2.2.2 "QUJD" (by decide) rfl (by decide)⟩

lemma filter_eq_singleton_find? {α : Type} (p : α → Bool) (l : List α) (a : α)
    (h : l.filter p = [a]) : l.find? p = some a := by
  induction l with
  | nil => simp at h
  | cons x xs ih =>
    by_cases hx : p x
    · rw [List.filter_cons_of_pos hx] at h
      obtain ⟨rfl, -⟩ : x = a ∧ xs.filter p = [] := by
        simpa using h
      simp [List.find?, hx]
    · rw [List.filter_cons_of_neg hx] at h
      have hx' : p x = false := by simpa using hx
      simp [List.find?, hx', ih h]

lemma updateById_spec (sid : String) (f : CallRecord → CallRecord)
    (hf_id : ∀ r, (f r).id = r.id)
    (hf_sid : ∀ r, (f r).call_session_id = r.call_session_id) :
    ∀ (store : List CallRecord) (r0 : CallRecord),
      filterSid sid store = [r0] →
      (store.map CallRecord.id).Nodup →
      filterSid sid (updateById r0.id f store) = [f r0] ∧
      (updateById r0.id f store).map CallRecord.id = store.map CallRecord.id := by
  intro store
  induction store with
  | nil => intro r0 h _; simp [filterSid] at h
  | cons a l ih =>
    intro r0 h hnd
    rw [List.map_cons, List.nodup_cons] at hnd
    by_cases ha : a.call_session_id = some sid
    · obtain ⟨rfl, hl⟩ : a = r0 ∧ filterSid sid l = [] := by
        simpa [filterSid, List.filter_cons, ha] using h
      refine ⟨?_, ?_⟩
      · simp [updateById, filterSid, List.filter_cons, hf_sid, ha,
          (by simpa [filterSid] using hl : l.filter
            (fun r => decide (r.call_session_id = some sid)) = [])]
      · simp [updateById, hf_id]
    · have hl : filterSid sid l = [r0] := by
        simpa [filterSid, List.filter_cons, ha] using h
      have hr0l : r0 ∈ l := by
        have : r0 ∈ filterSid sid l := by rw [hl]; exact List.mem_singleton.mpr rfl
        exact List.mem_of_mem_filter this
      have haid : a.id ≠ r0.id := by
        intro he
        exact hnd.1 (he ▸ List.mem_map_of_mem CallRecord.id hr0l)
      obtain ⟨ih1, ih2⟩ := ih r0 hl hnd.2
      refine ⟨?_, ?_⟩
      · simp [updateById, haid, filterSid, List.filter_cons, ha]
        simpa [filterSid] using ih1
      · simp [updateById, haid, ih2]

lemma log_call_update_step (sid : String) (hsid_ne : sid ≠ "")
    (t n : Nat) (i : LogInvocation)
    (hsid : i.call_data.call_session_id = some sid)
    (store : List CallRecord) (r0 : CallRecord)
    (h : filterSid sid store = [r0]) :
    log_call true t n i.phone_number i.lead_id (some i.call_data) store =
      updateById r0.id
        (applyCallUpdate t i.phone_number i.lead_id i.call_data) store := by
  have hfind := filter_eq_singleton_find?
    (fun r => decide (r.call_session_id = some sid)) store r0
    (by simpa [filterSid] using h)
  simp [log_call, hsid, hsid_ne, hfind]

lemma logFold_sid_phase (sid : String) (hsid_ne : sid ≠ "") (t : Nat) :
    ∀ (invs : List LogInvocation) (n : Nat) (store : List CallRecord)
      (r0 : CallRecord),
      (∀ i ∈ invs, i.call_data.call_session_id = some sid) →
      filterSid sid store = [r0] →
      (store.map CallRecord.id).Nodup →
      ∃ r, filterSid sid (logFold true t n invs store) = [r] ∧
        (invs = [] → r = r0) ∧
        ∀ h : invs ≠ [], recordMatches (invs.getLast h) r := by
  intro invs
  induction invs with
  | nil =>
    intro n store r0 _ hf _
    exact ⟨r0, by simpa [logFold] using hf, fun _ => rfl,
      fun h => absurd rfl h⟩
  | cons i rest ih =>
    intro n store r0 hall hf hnd
    have hsid := hall i (List.mem_cons_self i rest)
    have hup := log_call_update_step sid hsid_ne t n i hsid store r0 hf
    obtain ⟨h1, h2⟩ := updateById_spec sid
      (applyCallUpdate t i.phone_number i.lead_id i.call_data)
      (fun r => rfl) (fun r => rfl) store r0 hf hnd
    obtain ⟨r, hr1, hr2, hr3⟩ := ih (n + 1) _
      (applyCallUpdate t i.phone_number i.lead_id i.call_data r0)
      (fun j hj => hall j (List.mem_cons_of_mem i hj)) h1 (h2 ▸ hnd)
    refine ⟨r, ?_, ?_, ?_⟩
    · simpa [logFold, hup] using hr1
    · intro h; exact absurd h (List.cons_ne_nil i rest)
    · intro hne
      by_cases hrest : rest = []
      · subst hrest
        rw [List.getLast_singleton']
        rw [hr2 rfl]
        simp [recordMatches, applyCallUpdate]
      · rw [List.getLast_cons hrest]
        exact hr3 hrest

/-- C1 (amended): starting from a store with no record for session id
`sid` (and with distinct record ids below the fresh-id counter), any
non-empty sequence of `log_call` invocations all carrying the same
non-null and *non-empty* `call_session_id = sid` leaves exactly one record
with that session id in the `calls` store, and its logged fields equal
those of the last invocation's `call_data`.  The non-empty restriction is
forced by the source's truthiness guard `if session_id:`: an empty-string
session id takes the plain insert path (see
`log_call_empty_session_cex`). -/
theorem log_call_idempotent_by_session (sid : String) (hsid_ne : sid ≠ "")
    (t n : Nat)
    (invs : List LogInvocation) (store : List CallRecord)
    (hne : invs ≠ [])
    (hall : ∀ i ∈ invs, i.call_data.call_session_id = some sid)
    (hnone : filterSid sid store = [])
    (hnd : (store.map CallRecord.id).Nodup)
    (hbound : ∀ r ∈ store, r.id < n) :
    ∃ r, filterSid sid (logFold true t n invs store) = [r] ∧
      recordMatches (invs.getLast hne) r := by
  cases invs with
  | nil => exact absurd rfl hne
  | cons i rest =>
    have hsid := hall i (List.mem_cons_self i rest)
    have hfind : store.find?
        (fun r => decide (r.call_session_id = some sid)) = none := by
      rw [List.find?_eq_none]
      intro x hx
      simp only [decide_eq_true_eq]
      intro hcs
      have hmem : x ∈ filterSid sid store := by
        simp [filterSid, List.mem_filter, hx, hcs]
      rw [hnone] at hmem
      simp at hmem
    have hstep : log_call true t n i.phone_number i.lead_id
        (some i.call_data) store =
        store ++ [buildCallRecord n t i.phone_number i.lead_id
          (some i.call_data) (some sid)] := by
      simp [log_call, hsid, hsid_ne, hfind]
    have hfilter : filterSid sid (store ++
        [buildCallRecord n t i.phone_number i.lead_id
          (some i.call_data) (some sid)]) =
        [buildCallRecord n t i.phone_number i.lead_id
          (some i.call_data) (some sid)] := by
      rw [filterSid, List.filter_append]
      rw [show store.filter (fun r => decide (r.call_session_id = some sid)) = []
        from by simpa [filterSid] using hnone]
      simp [buildCallRecord]
    have hnd' : (((store ++ [buildCallRecord n t i.phone_number i.lead_id
        (some i.call_data) (some sid)]).map CallRecord.id)).Nodup := by
      rw [List.map_append, List.nodup_append]
      refine ⟨hnd, by simp, ?_⟩
      intro x hx
      simp only [List.map_cons, List.map_nil, List.mem_singleton,
        buildCallRecord]
      rw [List.mem_map] at hx
      obtain ⟨r, hr, rfl⟩ := hx
      exact fun he => absurd (he ▸ hbound r hr) (lt_irrefl n)
    obtain ⟨r, hr1, hr2, hr3⟩ := logFold_sid_phase sid hsid_ne t rest (n + 1) _
      (buildCallRecord n t i.phone_number i.lead_id (some i.call_data) (some sid))
      (fun j hj => hall j (List.mem_cons_of_mem i hj)) hfilter hnd'
    refine ⟨r, ?_, ?_⟩
    · simpa [logFold, hstep] using hr1
    · by_cases hrest : rest = []
      · subst hrest
        rw [List.getLast_singleton']
        rw [hr2 rfl]
        simp [recordMatches, buildCallRecord]
      · rw [List.getLast_cons hrest]
        exact hr3 hrest

theorem log_call_idempotent_by_session_witness :
    (("abc" : String) ≠ "" ∧
      ([⟨"+911111111111", none, { call_session_id := some "abc" }⟩,
       ⟨"+911111111111", some "L1",
         { call_session_id := some "abc", status := some "completed",
           duration := some 30 }⟩] : List LogInvocation) ≠ [] ∧
      (∀ i ∈ ([⟨"+911111111111", none, { call_session_id := some "abc" }⟩,
        ⟨"+911111111111", some "L1",
          { call_session_id := some "abc", status := some "completed",
            duration := some 30 }⟩] : List LogInvocation),
        i.call_data.call_session_id = some "abc") ∧
      filterSid "abc" [] = [] ∧
      (([] : List CallRecord).map CallRecord.id).Nodup ∧
      (∀ r ∈ ([] : List CallRecord), r.id < 0)) ∧
    ∃ r, filterSid "abc"
        (logFold true 7 0
          [⟨"+911111111111", none, { call_session_id := some "abc" }⟩,
           ⟨"+911111111111", some "L1",
             { call_session_id := some "abc", status := some "completed",
               duration := some 30 }⟩] []) = [r] ∧
      recordMatches
        (([⟨"+911111111111", none, { call_session_id := some "abc" }⟩,
           ⟨"+911111111111", some "L1",
             { call_session_id := some "abc", status := some "completed",
               duration := some 30 }⟩] : List LogInvocation).getLast
          (List.cons_ne_nil _ _)) r :=
  ⟨⟨by decide, by decide, by decide, rfl, by decide, by decide⟩,
    log_call_idempotent_by_session "abc" (by decide) 7 0 _ []
      (List.cons_ne_nil _ _) (by decide) rfl (by decide) (by decide)⟩

/-- C1 (as stated) is false for the non-null but empty session id: the
source guards the dedupe branch with Python's truthiness check
`if session_id:`, so `call_session_id = ""` takes the plain insert path on
every invocation and the `call_session_id` field is never set.  Two
invocations sharing the non-null session id `""` leave two records in the
store and no record carrying that session id — not exactly one record
with the fields of the last write. -/
theorem log_call_empty_session_cex :
    ((some "" : Option String) ≠ none) ∧
    (∀ i ∈ ([⟨"+911111111111", none, { call_session_id := some "" }⟩,
        ⟨"+911111111111", none, { call_session_id := some "" }⟩] :
          List LogInvocation),
      i.call_data.call_session_id = some "") ∧
    (logFold true 7 0
        [⟨"+911111111111", none, { call_session_id := some "" }⟩,
         ⟨"+911111111111", none, { call_session_id := some "" }⟩] []).length = 2 ∧
    filterSid ""
      (logFold true 7 0
        [⟨"+911111111111", none, { call_session_id := some "" }⟩,
         ⟨"+911111111111", none, { call_session_id := some "" }⟩] []) = [] :=
  ⟨by decide, by decide, rfl, rfl⟩
